import Mathlib

/-!
Shallow embedding of the query-builder core of `src/utils/CloudflareD1Utils.ts`
(n8n-nodes-cloudflare-d1).  JavaScript objects used as ordered column→value
mappings (`IDataObject`) are embedded as association lists preserving iteration
order; JavaScript values carried in the `params` arrays are embedded as the
`JSValue` inductive (with `vUndef` for `undefined`); functions that `throw`
are embedded as `Except String _`.
-/

namespace D1

/-- A JavaScript value as it appears in a bound-parameter array. -/
inductive JSValue where
  | vUndef : JSValue
  | vNull : JSValue
  | vBool : Bool → JSValue
  | vNum : Int → JSValue
  | vStr : String → JSValue
  | vArr : List JSValue → JSValue

/-- `Array.isArray` on an embedded JavaScript value. -/
def isArray : JSValue → Bool
  | .vArr _ => true
  | _ => false

/-- Double-quote an identifier, as the template fragments do. -/
def dq (s : String) : String := "\"" ++ s ++ "\""

/-- First-character class of the regex in validateTableName and
validateColumnNames. -/
def isIdentStart (c : Char) : Bool := c.isAlpha || c = '_'

/-- Tail-character class of the same regex. -/
def isIdentChar (c : Char) : Bool := c.isAlpha || c.isDigit || c = '_'

/-- Whether a string matches the identifier regex used by the validators. -/
def validIdent (s : String) : Bool :=
  match s.data with
  | [] => false
  | c :: rest => isIdentStart c && rest.all isIdentChar

/-- `CloudflareD1Utils.validateTableName` (lines 299-304): throws unless the
name matches the identifier regex. -/
def validateTableName (tableName : String) : Except String Unit :=
  if validIdent tableName then Except.ok () else
    Except.error ("Invalid table name: " ++ tableName ++ ". Table names must start with a letter or underscore and contain only letters, numbers, and underscores.")

/-- `CloudflareD1Utils.validateColumnNames` (lines 309-316): throws at the
first column name failing the identifier regex. -/
def validateColumnNames (columns : List String) : Except String Unit :=
  match columns.find? (fun c => !validIdent c) with
  | some c => Except.error ("Invalid column name: " ++ c ++ ". Column names must start with a letter or underscore and contain only letters, numbers, and underscores.")
  | none => Except.ok ()

/-- A built query: SQL text plus the positional parameter list. -/
structure BuiltQuery where
  sql : String
  params : List JSValue

/-- `CloudflareD1Utils.buildInsertQuery` (lines 197-207).  No validation is
performed; the table and column names are interpolated directly. -/
def buildInsertQuery (tableName : String) (data : List (String × JSValue)) : BuiltQuery :=
  let columns := data.map Prod.fst
  let values := data.map Prod.snd
  let columnList := String.intercalate ", " (columns.map dq)
  let placeholders := String.intercalate ", " (columns.map (fun _ => "?"))
  { sql := "INSERT INTO " ++ dq tableName ++ " (" ++ columnList ++ ") VALUES (" ++ placeholders ++ ")"
    params := values }

/-- `CloudflareD1Utils.buildSelectQuery` (lines 212-245).  `where` is an
optional object; an absent object and an empty one take the same branch, so it
is embedded as a possibly-empty association list.  `limit`/`offset` are
guarded by JavaScript truthiness (`if (limit)`), so `0` is skipped. -/
def buildSelectQuery (tableName : String) (columns : List String := ["*"])
    (whereMap : List (String × JSValue) := []) (orderBy : Option String := none)
    (limit : Option Int := none) (offset : Option Int := none) : BuiltQuery :=
  let columnList := if columns.contains "*" then "*" else String.intercalate ", " (columns.map dq)
  let sql := "SELECT " ++ columnList ++ " FROM " ++ dq tableName
  let params : List JSValue := []
  let (sql, params) :=
    if whereMap.length > 0 then
      (sql ++ " WHERE " ++ String.intercalate " AND " (whereMap.map (fun kv => dq kv.fst ++ " = ?")),
       params ++ whereMap.map Prod.snd)
    else (sql, params)
  let sql := match orderBy with
    | some ob => if ob != "" then sql ++ " ORDER BY " ++ ob else sql
    | none => sql
  let (sql, params) := match limit with
    | some l => if l != 0 then (sql ++ " LIMIT ?", params ++ [JSValue.vNum l]) else (sql, params)
    | none => (sql, params)
  let (sql, params) := match offset with
    | some o => if o != 0 then (sql ++ " OFFSET ?", params ++ [JSValue.vNum o]) else (sql, params)
    | none => (sql, params)
  { sql := sql, params := params }

/-- `CloudflareD1Utils.buildUpdateQuery` (lines 250-269).  Update values are
pushed first, then the WHERE-bound values. -/
def buildUpdateQuery (tableName : String) (updateData : List (String × JSValue))
    (whereMap : List (String × JSValue) := []) : BuiltQuery :=
  let setClause := String.intercalate ", " (updateData.map (fun kv => dq kv.fst ++ " = ?"))
  let sql := "UPDATE " ++ dq tableName ++ " SET " ++ setClause
  let params := updateData.map Prod.snd
  let (sql, params) :=
    if whereMap.length > 0 then
      (sql ++ " WHERE " ++ String.intercalate " AND " (whereMap.map (fun kv => dq kv.fst ++ " = ?")),
       params ++ whereMap.map Prod.snd)
    else (sql, params)
  { sql := sql, params := params }

/-- `CloudflareD1Utils.buildDeleteQuery` (lines 274-294).  `limit` is guarded
by JavaScript truthiness, so `0` is skipped. -/
def buildDeleteQuery (tableName : String) (whereMap : List (String × JSValue) := [])
    (limit : Option Int := none) : BuiltQuery :=
  let sql := "DELETE FROM " ++ dq tableName
  let params : List JSValue := []
  let (sql, params) :=
    if whereMap.length > 0 then
      (sql ++ " WHERE " ++ String.intercalate " AND " (whereMap.map (fun kv => dq kv.fst ++ " = ?")),
       params ++ whereMap.map Prod.snd)
    else (sql, params)
  let (sql, params) := match limit with
    | some l => if l != 0 then (sql ++ " LIMIT ?", params ++ [JSValue.vNum l]) else (sql, params)
    | none => (sql, params)
  { sql := sql, params := params }

/-- A WHERE/HAVING condition (`D1WhereCondition`).  Absent `value`/`value2`
fields are `vUndef`, matching `undefined` in the source. -/
structure D1WhereCondition where
  field : String
  operator : String
  value : JSValue := JSValue.vUndef
  value2 : JSValue := JSValue.vUndef

/-- One iteration of the loop body of `buildWhereClause` (lines 479-507):
the emitted clause for one condition plus the updated params array. -/
def conditionClause (condition : D1WhereCondition) (params : List JSValue) :
    String × List JSValue :=
  let base := dq condition.field
  if condition.operator = "IS NULL" then (base ++ " IS NULL", params)
  else if condition.operator = "IS NOT NULL" then (base ++ " IS NOT NULL", params)
  else if condition.operator = "IN" ∨ condition.operator = "NOT IN" then
    match condition.value with
    | JSValue.vArr xs =>
        (base ++ " " ++ condition.operator ++ " (" ++
           String.intercalate ", " (xs.map (fun _ => "?")) ++ ")",
         params ++ xs)
    | _ => (base, params)
  else if condition.operator = "BETWEEN" then
    (base ++ " BETWEEN ? AND ?", params ++ [condition.value, condition.value2])
  else (base ++ " " ++ condition.operator ++ " ?", params ++ [condition.value])

/-- The clause-collecting loop of `buildWhereClause`. -/
def buildWhereClauseAux :
    List D1WhereCondition → List String → List JSValue → List String × List JSValue
  | [], clauses, params => (clauses, params)
  | condition :: rest, clauses, params =>
      let (clause, params2) := conditionClause condition params
      buildWhereClauseAux rest (clauses ++ [clause]) params2

/-- `CloudflareD1Utils.buildWhereClause` (lines 476-510).  The source mutates
the caller's `params` array and returns the clause string; here the updated
array is returned alongside. -/
def buildWhereClause (conditions : List D1WhereCondition) (params : List JSValue)
    (logic : String := "AND") : String × List JSValue :=
  let (clauses, params2) := buildWhereClauseAux conditions [] params
  (String.intercalate (" " ++ logic ++ " ") clauses, params2)

/-- A JOIN spec from `D1QueryBuilder.joins`. -/
structure D1JoinSpec where
  type : String
  table : String
  onExpr : String

/-- An ORDER BY entry from `D1QueryBuilder.orderBy`. -/
structure D1OrderSpec where
  field : String
  direction : String

/-- `D1QueryBuilder`.  The TS `where` field is renamed `whereConds` (Lean
keyword); optional arrays are embedded as possibly-empty lists, which the
source treats identically (`x && x.length > 0`). -/
structure D1QueryBuilder where
  table : String
  columns : List String := []
  joins : List D1JoinSpec := []
  whereConds : List D1WhereCondition := []
  whereLogic : Option String := none
  groupBy : List String := []
  having : List D1WhereCondition := []
  orderBy : List D1OrderSpec := []
  limit : Option Int := none
  offset : Option Int := none

/-- `CloudflareD1Utils.buildQueryFromBuilder` (lines 415-471). -/
def buildQueryFromBuilder (builder : D1QueryBuilder) : BuiltQuery :=
  let params : List JSValue := []
  let columns := if builder.columns.length > 0
    then String.intercalate ", " (builder.columns.map dq) else "*"
  let sql := "SELECT " ++ columns ++ " FROM " ++ dq builder.table
  let sql := builder.joins.foldl
    (fun s j => s ++ " " ++ j.type ++ " JOIN " ++ dq j.table ++ " ON " ++ j.onExpr) sql
  let (sql, params) :=
    if builder.whereConds.length > 0 then
      let (conditions, params2) :=
        buildWhereClause builder.whereConds params (builder.whereLogic.getD "AND")
      (if conditions ≠ "" then sql ++ " WHERE " ++ conditions else sql, params2)
    else (sql, params)
  let sql := if builder.groupBy.length > 0
    then sql ++ " GROUP BY " ++ String.intercalate ", " (builder.groupBy.map dq) else sql
  let (sql, params) :=
    if builder.having.length > 0 then
      let (conditions, params2) := buildWhereClause builder.having params "AND"
      (if conditions ≠ "" then sql ++ " HAVING " ++ conditions else sql, params2)
    else (sql, params)
  let sql := if builder.orderBy.length > 0
    then sql ++ " ORDER BY " ++
      String.intercalate ", " (builder.orderBy.map (fun o => dq o.field ++ " " ++ o.direction))
    else sql
  let (sql, params) := match builder.limit with
    | some l => (sql ++ " LIMIT ?", params ++ [JSValue.vNum l])
    | none => (sql, params)
  let (sql, params) := match builder.offset with
    | some o => (sql ++ " OFFSET ?", params ++ [JSValue.vNum o])
    | none => (sql, params)
  { sql := sql, params := params }

/-- A column spec for CREATE TABLE (`D1TableColumn`).  Optional booleans are
`false` when absent (both falsy in the source); an absent `defaultValue` is
`vUndef`. -/
structure D1TableColumn where
  name : String
  type : String
  primaryKey : Bool := false
  autoIncrement : Bool := false
  notNull : Bool := false
  unique : Bool := false
  defaultValue : JSValue := JSValue.vUndef

/-- `D1CreateTableOptions`. -/
structure D1CreateTableOptions where
  ifNotExists : Bool := false
  withoutRowId : Bool := false
  strict : Bool := false

/-- The single-quote character, used when inlining string DEFAULT literals. -/
def squote : String := String.mk [Char.ofNat 39]

/-- `column.defaultValue.replace per the source: double every embedded single
quote. -/
def escapeDefault (s : String) : String := s.replace squote (squote ++ squote)

mutual
/-- JavaScript template-literal string conversion for the values that can
reach the bare `DEFAULT` branch. -/
def jsToString : JSValue → String
  | JSValue.vUndef => "undefined"
  | JSValue.vNull => "null"
  | JSValue.vBool b => if b then "true" else "false"
  | JSValue.vNum n => toString n
  | JSValue.vStr s => s
  | JSValue.vArr xs => jsToStringList xs

/-- JavaScript `Array.prototype.toString`: elements joined with commas. -/
def jsToStringList : List JSValue → String
  | [] => ""
  | [x] => jsToString x
  | x :: xs => jsToString x ++ "," ++ jsToStringList xs
end

/-- The per-column body of the loop in `buildCreateTableSQL` (lines 358-387):
the rendered column definition. -/
def columnDefinition (column : D1TableColumn) : String :=
  let d := dq column.name ++ " " ++ column.type
  let d := if column.primaryKey then
      (if column.autoIncrement && (column.type == "INTEGER") then
        dq column.name ++ " INTEGER PRIMARY KEY AUTOINCREMENT"
      else d)
    else d
  let d := if column.notNull && !column.primaryKey then d ++ " NOT NULL" else d
  let d := if column.unique && !column.primaryKey then d ++ " UNIQUE" else d
  let d := match column.defaultValue with
    | JSValue.vUndef => d
    | JSValue.vStr s => d ++ " DEFAULT " ++ squote ++ escapeDefault s ++ squote
    | JSValue.vNull => d ++ " DEFAULT NULL"
    | v => d ++ " DEFAULT " ++ jsToString v
  d

/-- `CloudflareD1Utils.buildCreateTableSQL` (lines 348-410).  The only
validation is `validateTableName` on the table name; a throw is an `error`
result. -/
def buildCreateTableSQL (tableName : String) (columns : List D1TableColumn)
    (options : D1CreateTableOptions := {}) : Except String String :=
  match validateTableName tableName with
  | Except.error e => Except.error e
  | Except.ok _ =>
    let columnDefinitions := columns.map columnDefinition
    let primaryKeys := (columns.filter (fun c => c.primaryKey)).map (fun c => dq c.name)
    let columnDefinitions := if primaryKeys.length > 1 then
        columnDefinitions ++ ["PRIMARY KEY (" ++ String.intercalate ", " primaryKeys ++ ")"]
      else columnDefinitions
    let sql := "CREATE TABLE " ++ (if options.ifNotExists then "IF NOT EXISTS " else "")
    let sql := sql ++ dq tableName ++ " (" ++ String.intercalate ", " columnDefinitions ++ ")"
    let sql := if options.withoutRowId then sql ++ " WITHOUT ROWID" else sql
    let sql := if options.strict then sql ++ " STRICT" else sql
    Except.ok sql

/-! ### Helper lemmas about string assembly -/

/-- `sep ++ a₁ ++ sep ++ a₂ ++ …`: the tail part of an intercalation. -/
def preJoin (sep : String) : List String → String
  | [] => ""
  | a :: as => sep ++ a ++ preJoin sep as

theorem strCongr {s t u : String} (h : t = u) : s ++ t = s ++ u := by rw [h]

theorem intercalate_go_eq (sep : String) :
    ∀ (as : List String) (acc : String),
      String.intercalate.go acc sep as = acc ++ preJoin sep as := by
  intro as
  induction as with
  | nil => intro acc; simp [String.intercalate.go, preJoin]
  | cons a as ih =>
      intro acc
      simp [String.intercalate.go, preJoin, ih, String.append_assoc]

theorem intercalate_nil (sep : String) : String.intercalate sep [] = "" := rfl

theorem intercalate_cons (sep a : String) (as : List String) :
    String.intercalate sep (a :: as) = a ++ preJoin sep as := by
  simp [String.intercalate, intercalate_go_eq]

/-- Count of placeholder characters in a string. -/
def countQ (s : String) : Nat := s.data.count '?'

theorem countQ_append (s t : String) : countQ (s ++ t) = countQ s + countQ t := by
  simp [countQ, String.data_append]

/-- Spec-side: a VALUES list of `n` placeholders, as the claims describe it. -/
def placeholderList (n : Nat) : String := String.intercalate ", " (List.replicate n "?")

theorem countQ_preJoin_q (n : Nat) :
    countQ (preJoin ", " (List.replicate n "?")) = n := by
  induction n with
  | zero => rfl
  | succ n ih =>
      have e : preJoin ", " (List.replicate (n + 1) "?") =
          (", " ++ "?") ++ preJoin ", " (List.replicate n "?") := rfl
      rw [e, countQ_append, ih]
      have h3 : countQ (", " ++ "?") = 1 := by decide
      omega

theorem countQ_placeholderList (n : Nat) : countQ (placeholderList n) = n := by
  cases n with
  | zero => rfl
  | succ n =>
      simp [placeholderList, List.replicate_succ, intercalate_cons, countQ_append,
        countQ_preJoin_q]
      have h2 : countQ "?" = 1 := by decide
      omega

theorem map_const_q {α : Type} (l : List α) :
    l.map (fun _ => "?") = List.replicate l.length "?" := by
  induction l with
  | nil => rfl
  | cons a l ih => simp [ih, List.replicate_succ]

/-! ### Claims -/

/-- Claim C1, counterexample: `"1bad"` fails the identifier regex, yet
`buildInsertQuery` does not reject it — it interpolates it into SQL text. -/
theorem claim1_counterexample :
    validIdent "1bad" = false ∧
      (buildInsertQuery "1bad" [("a", JSValue.vNum 1)]).sql =
        "INSERT INTO \"1bad\" (\"a\") VALUES (?)" := by
  exact ⟨rfl, rfl⟩

/-- Claim C1 as amended: the validators and `buildCreateTableSQL` (table name
only) reject exactly the names failing the identifier regex, while
`buildInsertQuery` interpolates the table and column names into SQL text with
no validation whatsoever. -/
theorem claim1_validation_scope (t : String) (cnames : List String)
    (cols : List D1TableColumn) (opts : D1CreateTableOptions)
    (data : List (String × JSValue)) :
    (validateTableName t).isOk = validIdent t
    ∧ (validateColumnNames cnames).isOk = cnames.all validIdent
    ∧ (buildCreateTableSQL t cols opts).isOk = validIdent t
    ∧ (buildInsertQuery t data).sql =
        "INSERT INTO " ++ dq t ++ " (" ++
          String.intercalate ", " ((data.map Prod.fst).map dq) ++
          ") VALUES (" ++ placeholderList data.length ++ ")" := by
  refine ⟨?_, ?_, ?_, ?_⟩
  · by_cases h : validIdent t <;> simp [validateTableName, h, Except.isOk, Except.toBool]
  · cases hf : cnames.find? (fun c => !validIdent c) with
    | none =>
        have hall : cnames.all validIdent = true := by
          rw [List.all_eq_true]
          intro x hx
          have := List.find?_eq_none.mp hf x hx
          simpa using this
        simp [validateColumnNames, hf, Except.isOk, Except.toBool, hall]
    | some c =>
        have hc : c ∈ cnames := List.mem_of_find?_eq_some hf
        have hcv : validIdent c = false := by
          have := List.find?_some hf
          simpa using this
        have hall : cnames.all validIdent = false := by
          rw [List.all_eq_false]
          exact ⟨c, hc, by simp [hcv]⟩
        simp [validateColumnNames, hf, Except.isOk, Except.toBool, hall]
  · by_cases h : validIdent t <;>
      simp [buildCreateTableSQL, validateTableName, h, Except.isOk, Except.toBool]
  · simp only [buildInsertQuery, placeholderList]
    rw [map_const_q]
    simp

/-- Claim C2 (confirmed): `buildInsertQuery` on a mapping of size `n ≥ 1`
emits exactly `n` placeholders in the VALUES list, the `n` column names in
iteration order, and the `n` values as params in the same order. -/
theorem claim2_insert_shape (t : String) (data : List (String × JSValue))
    (h : data ≠ []) :
    (buildInsertQuery t data).sql =
      "INSERT INTO " ++ dq t ++ " (" ++
        String.intercalate ", " ((data.map Prod.fst).map dq) ++
        ") VALUES (" ++ placeholderList data.length ++ ")"
    ∧ countQ (placeholderList data.length) = data.length
    ∧ (buildInsertQuery t data).params = data.map Prod.snd
    ∧ (buildInsertQuery t data).params.length = data.length := by
  refine ⟨?_, countQ_placeholderList _, rfl, by simp [buildInsertQuery]⟩
  simp only [buildInsertQuery, placeholderList]
  rw [map_const_q]
  simp

/-- Witness for C2 at a two-column mapping. -/
theorem claim2_insert_shape_witness :
    (buildInsertQuery "t" [("a", JSValue.vNum 1), ("b", JSValue.vStr "x")]).sql =
      "INSERT INTO " ++ dq "t" ++ " (" ++
        String.intercalate ", "
          (([("a", JSValue.vNum 1), ("b", JSValue.vStr "x")].map Prod.fst).map dq) ++
        ") VALUES (" ++ placeholderList 2 ++ ")"
    ∧ countQ (placeholderList 2) = 2
    ∧ (buildInsertQuery "t" [("a", JSValue.vNum 1), ("b", JSValue.vStr "x")]).params =
        [("a", JSValue.vNum 1), ("b", JSValue.vStr "x")].map Prod.snd
    ∧ (buildInsertQuery "t" [("a", JSValue.vNum 1), ("b", JSValue.vStr "x")]).params.length = 2 :=
  claim2_insert_shape "t" [("a", JSValue.vNum 1), ("b", JSValue.vStr "x")] (by simp)

/-- Claim C3, counterexample: the empty mapping is not rejected — a complete
(degenerate) SQL text is produced. -/
theorem claim3_counterexample :
    (buildInsertQuery "t" []).sql = "INSERT INTO \"t\" () VALUES ()"
    ∧ (buildInsertQuery "t" []).sql ≠ ""
    ∧ (buildInsertQuery "t" []).params = [] := by
  refine ⟨rfl, by decide, rfl⟩

/-- Claim C3 as amended: an empty mapping yields
`INSERT INTO "<table>" () VALUES ()` with an empty params array; no
`EmptyInsert` error exists in the builder. -/
theorem claim3_empty_insert (t : String) :
    (buildInsertQuery t []).sql = "INSERT INTO " ++ dq t ++ " () VALUES ()"
    ∧ (buildInsertQuery t []).params = [] := by
  constructor
  · simp only [buildInsertQuery, List.map_nil, intercalate_nil, String.append_empty,
      String.append_assoc]
    apply strCongr
    apply strCongr
    decide
  · rfl

/-- Claim C4 (confirmed): `buildUpdateQuery` binds the update values first,
then the WHERE values, and the params array has length `m + k`. -/
theorem claim4_update_param_order (t : String)
    (upd wh : List (String × JSValue)) (h : upd ≠ []) :
    (buildUpdateQuery t upd wh).params = upd.map Prod.snd ++ wh.map Prod.snd
    ∧ (buildUpdateQuery t upd wh).params.length = upd.length + wh.length := by
  constructor
  · by_cases hw : wh.length > 0 <;> simp_all [buildUpdateQuery]
  · by_cases hw : wh.length > 0 <;> simp_all [buildUpdateQuery]

/-- Witness for C4: `data = (a:1, b:2)`, `where = (id:9)` gives params
`[1, 2, 9]`. -/
theorem claim4_update_param_order_witness :
    (buildUpdateQuery "t" [("a", JSValue.vNum 1), ("b", JSValue.vNum 2)]
        [("id", JSValue.vNum 9)]).params =
      [JSValue.vNum 1, JSValue.vNum 2, JSValue.vNum 9] :=
  (claim4_update_param_order "t" [("a", JSValue.vNum 1), ("b", JSValue.vNum 2)]
    [("id", JSValue.vNum 9)] (by simp)).1

/-! ### The condition compiler as a per-condition map -/

/-- The fragment one condition contributes, taken from the loop body. -/
def condFrag (c : D1WhereCondition) : String := (conditionClause c []).1

/-- The parameters one condition contributes, taken from the loop body. -/
def condParams (c : D1WhereCondition) : List JSValue := (conditionClause c []).2

theorem conditionClause_eq (c : D1WhereCondition) (ps : List JSValue) :
    conditionClause c ps = (condFrag c, ps ++ condParams c) := by
  by_cases h1 : c.operator = "IS NULL"
  · simp [conditionClause, condFrag, condParams, h1]
  by_cases h2 : c.operator = "IS NOT NULL"
  · simp [conditionClause, condFrag, condParams, h1, h2]
  by_cases h3 : c.operator = "IN" ∨ c.operator = "NOT IN"
  · cases hv : c.value <;> simp [conditionClause, condFrag, condParams, h1, h2, h3, hv]
  by_cases h4 : c.operator = "BETWEEN"
  · simp [conditionClause, condFrag, condParams, h1, h2, h3, h4]
  · simp [conditionClause, condFrag, condParams, h1, h2, h3, h4]

theorem buildWhereClauseAux_eq (conds : List D1WhereCondition) :
    ∀ (cls : List String) (ps : List JSValue),
      buildWhereClauseAux conds cls ps =
        (cls ++ conds.map condFrag, ps ++ conds.flatMap condParams) := by
  induction conds with
  | nil => intro cls ps; simp [buildWhereClauseAux]
  | cons c rest ih =>
      intro cls ps
      simp [buildWhereClauseAux, conditionClause_eq, ih]

theorem buildWhereClause_eq (conds : List D1WhereCondition) (ps : List JSValue)
    (logic : String) :
    buildWhereClause conds ps logic =
      (String.intercalate (" " ++ logic ++ " ") (conds.map condFrag),
       ps ++ conds.flatMap condParams) := by
  simp [buildWhereClause, buildWhereClauseAux_eq]

/-- Claim C5 (confirmed): the condition compiler joins the per-condition
fragments with the single logic operator in condition order, appending the
per-condition parameters in the same order, and each operator emits the
fragment and consumes the parameters the table of the spec gives. -/
theorem claim5_condition_compiler (conds : List D1WhereCondition) (logic : String)
    (hl : logic = "AND" ∨ logic = "OR") :
    buildWhereClause conds [] logic =
      (String.intercalate (" " ++ logic ++ " ") (conds.map condFrag),
       conds.flatMap condParams)
    ∧ ∀ c ∈ conds,
        (c.operator = "IS NULL" →
          condFrag c = dq c.field ++ " IS NULL" ∧ condParams c = [])
      ∧ (c.operator = "IS NOT NULL" →
          condFrag c = dq c.field ++ " IS NOT NULL" ∧ condParams c = [])
      ∧ (∀ xs, (c.operator = "IN" ∨ c.operator = "NOT IN") →
            c.value = JSValue.vArr xs →
          condFrag c =
            dq c.field ++ " " ++ c.operator ++ " (" ++ placeholderList xs.length ++ ")"
          ∧ countQ (placeholderList xs.length) = xs.length
          ∧ condParams c = xs)
      ∧ (c.operator = "BETWEEN" →
          condFrag c = dq c.field ++ " BETWEEN ? AND ?"
          ∧ condParams c = [c.value, c.value2])
      ∧ (c.operator ≠ "IS NULL" → c.operator ≠ "IS NOT NULL" → c.operator ≠ "IN" →
            c.operator ≠ "NOT IN" → c.operator ≠ "BETWEEN" →
          condFrag c = dq c.field ++ " " ++ c.operator ++ " ?"
          ∧ condParams c = [c.value]) := by
  refine ⟨by simpa using buildWhereClause_eq conds [] logic, ?_⟩
  intro c _
  refine ⟨?_, ?_, ?_, ?_, ?_⟩
  · intro h1; simp [condFrag, condParams, conditionClause, h1]
  · intro h2
    have h1 : c.operator ≠ "IS NULL" := by rw [h2]; decide
    simp [condFrag, condParams, conditionClause, h1, h2]
  · intro xs h3 hv
    have h1 : c.operator ≠ "IS NULL" := by
      rcases h3 with h | h <;> rw [h] <;> decide
    have h2 : c.operator ≠ "IS NOT NULL" := by
      rcases h3 with h | h <;> rw [h] <;> decide
    refine ⟨?_, countQ_placeholderList _, ?_⟩
    · simp only [condFrag, conditionClause, if_neg h1, if_neg h2, if_pos h3, hv,
        placeholderList]
      rw [map_const_q]
    · simp [condParams, conditionClause, h1, h2, h3, hv]
  · intro h4
    have h3 : ¬(c.operator = "IN" ∨ c.operator = "NOT IN") := by
      rw [h4]; decide
    have h1 : c.operator ≠ "IS NULL" := by rw [h4]; decide
    have h2 : c.operator ≠ "IS NOT NULL" := by rw [h4]; decide
    simp [condFrag, condParams, conditionClause, h1, h2, h3, h4]
  · intro h1 h2 hin hnin h4
    have h3 : ¬(c.operator = "IN" ∨ c.operator = "NOT IN") := by
      simp [hin, hnin]
    simp [condFrag, condParams, conditionClause, h1, h2, h3, h4]

/-- Witness for C5 at the spec example: `age >= 18 AND status IN (active,
pending)`. -/
theorem claim5_condition_compiler_witness :
    buildWhereClause
        [⟨"age", ">=", JSValue.vNum 18, JSValue.vUndef⟩,
         ⟨"status", "IN", JSValue.vArr [JSValue.vStr "active", JSValue.vStr "pending"],
           JSValue.vUndef⟩] [] "AND" =
      ("\"age\" >= ? AND \"status\" IN (?, ?)",
       [JSValue.vNum 18, JSValue.vStr "active", JSValue.vStr "pending"]) := by
  have h := claim5_condition_compiler
    [⟨"age", ">=", JSValue.vNum 18, JSValue.vUndef⟩,
     ⟨"status", "IN", JSValue.vArr [JSValue.vStr "active", JSValue.vStr "pending"],
       JSValue.vUndef⟩] "AND" (Or.inl rfl)
  exact h.1.trans rfl

/-- Claim C6, counterexample: an IN condition whose value is not an array is
not rejected — the compiler emits the bare quoted field name with no operator;
a BETWEEN condition with an absent `value2` is not rejected either. -/
theorem claim6_counterexample :
    buildWhereClause [⟨"a", "IN", JSValue.vNum 5, JSValue.vUndef⟩] [] "AND" =
      ("\"a\"", [])
    ∧ buildWhereClause [⟨"b", "BETWEEN", JSValue.vNum 1, JSValue.vUndef⟩] [] "AND" =
        ("\"b\" BETWEEN ? AND ?", [JSValue.vNum 1, JSValue.vUndef]) :=
  ⟨rfl, rfl⟩

/-- Claim C6 as amended: no `MalformedCondition` error exists.  BETWEEN with
an absent `value2` emits `"field" BETWEEN ? AND ?` binding the undefined
`value2` as the second parameter, and IN/NOT IN with a non-array value emits
the bare quoted field name, binding nothing. -/
theorem claim6_malformed_behavior (f : String) (v v2 : JSValue) (op : String)
    (hop : op = "IN" ∨ op = "NOT IN") (hv : isArray v = false) :
    buildWhereClause [⟨f, op, v, v2⟩] [] "AND" = (dq f, [])
    ∧ buildWhereClause [⟨f, "BETWEEN", v, JSValue.vUndef⟩] [] "AND" =
        (dq f ++ " BETWEEN ? AND ?", [v, JSValue.vUndef]) := by
  constructor
  · have h1 : op ≠ "IS NULL" := by rcases hop with h | h <;> rw [h] <;> decide
    have h2 : op ≠ "IS NOT NULL" := by rcases hop with h | h <;> rw [h] <;> decide
    cases v <;> simp_all [buildWhereClause, buildWhereClauseAux, conditionClause,
      isArray, intercalate_cons, preJoin]
  · simp [buildWhereClause, buildWhereClauseAux, conditionClause,
      intercalate_cons, preJoin]

/-- Witness for C6 as amended, at `a IN 5` (non-array value). -/
theorem claim6_malformed_behavior_witness :
    buildWhereClause [⟨"a", "IN", JSValue.vNum 5, JSValue.vUndef⟩] [] "AND" =
      (dq "a", [])
    ∧ buildWhereClause [⟨"a", "BETWEEN", JSValue.vNum 5, JSValue.vUndef⟩] [] "AND" =
        (dq "a" ++ " BETWEEN ? AND ?", [JSValue.vNum 5, JSValue.vUndef]) :=
  claim6_malformed_behavior "a" (JSValue.vNum 5) JSValue.vUndef "IN" (Or.inl rfl) rfl

/-! ### Clause-by-clause decomposition of the rich SELECT builder -/

/-- The SELECT...FROM head of the produced text. -/
def selectFragment (b : D1QueryBuilder) : String :=
  "SELECT " ++
    (if b.columns.length > 0 then String.intercalate ", " (b.columns.map dq) else "*") ++
    " FROM " ++ dq b.table

/-- The JOIN clauses, in join order. -/
def joinFragmentList : List D1JoinSpec → String
  | [] => ""
  | j :: rest =>
      " " ++ j.type ++ " JOIN " ++ dq j.table ++ " ON " ++ j.onExpr ++ joinFragmentList rest

theorem foldl_join (l : List D1JoinSpec) :
    ∀ s : String,
      l.foldl (fun s j => s ++ " " ++ j.type ++ " JOIN " ++ dq j.table ++ " ON " ++ j.onExpr) s =
        s ++ joinFragmentList l := by
  induction l with
  | nil => intro s; simp [joinFragmentList]
  | cons j rest ih =>
      intro s
      rw [List.foldl_cons, ih]
      simp only [joinFragmentList]
      simp [String.append_assoc]

/-- The WHERE clause (empty when absent). -/
def whereFragment (b : D1QueryBuilder) : String :=
  if b.whereConds.length > 0 then
    let conditions := (buildWhereClause b.whereConds [] (b.whereLogic.getD "AND")).1
    if conditions ≠ "" then " WHERE " ++ conditions else ""
  else ""

/-- The parameters bound by the WHERE clause. -/
def whereParamsFrag (b : D1QueryBuilder) : List JSValue :=
  if b.whereConds.length > 0 then b.whereConds.flatMap condParams else []

/-- The GROUP BY clause (empty when absent). -/
def groupFragment (b : D1QueryBuilder) : String :=
  if b.groupBy.length > 0 then
    " GROUP BY " ++ String.intercalate ", " (b.groupBy.map dq)
  else ""

/-- The HAVING clause (empty when absent). -/
def havingFragment (b : D1QueryBuilder) : String :=
  if b.having.length > 0 then
    let conditions := (buildWhereClause b.having [] "AND").1
    if conditions ≠ "" then " HAVING " ++ conditions else ""
  else ""

/-- The parameters bound by the HAVING clause. -/
def havingParamsFrag (b : D1QueryBuilder) : List JSValue :=
  if b.having.length > 0 then b.having.flatMap condParams else []

/-- The ORDER BY clause (empty when absent). -/
def orderFragment (b : D1QueryBuilder) : String :=
  if b.orderBy.length > 0 then
    " ORDER BY " ++
      String.intercalate ", " (b.orderBy.map (fun o => dq o.field ++ " " ++ o.direction))
  else ""

/-- The LIMIT clause (empty when the field is undefined). -/
def limitFragment (b : D1QueryBuilder) : String :=
  match b.limit with
  | some _ => " LIMIT ?"
  | none => ""

/-- The parameter bound by LIMIT. -/
def limitParamsFrag (b : D1QueryBuilder) : List JSValue :=
  match b.limit with
  | some l => [JSValue.vNum l]
  | none => []

/-- The OFFSET clause (empty when the field is undefined). -/
def offsetFragment (b : D1QueryBuilder) : String :=
  match b.offset with
  | some _ => " OFFSET ?"
  | none => ""

/-- The parameter bound by OFFSET. -/
def offsetParamsFrag (b : D1QueryBuilder) : List JSValue :=
  match b.offset with
  | some o => [JSValue.vNum o]
  | none => []

theorem ite_append (p : Prop) [Decidable p] (s x : String) :
    (if p then s ++ x else s) = s ++ (if p then x else "") := by
  split <;> simp

set_option maxHeartbeats 1600000 in
theorem buildQueryFromBuilder_decomp (b : D1QueryBuilder) :
    buildQueryFromBuilder b =
      { sql := selectFragment b ++ joinFragmentList b.joins ++ whereFragment b ++
          groupFragment b ++ havingFragment b ++ orderFragment b ++
          limitFragment b ++ offsetFragment b,
        params := whereParamsFrag b ++ havingParamsFrag b ++
          limitParamsFrag b ++ offsetParamsFrag b } := by
  cases b with
  | mk table columns joins whereConds whereLogic groupBy having orderBy limit offset =>
    simp only [buildQueryFromBuilder, foldl_join, buildWhereClause_eq]
    by_cases hw : whereConds.length > 0 <;> by_cases hh : having.length > 0 <;>
      by_cases hg : groupBy.length > 0 <;> by_cases ho : orderBy.length > 0 <;>
      cases limit <;> cases offset <;>
      simp [selectFragment, whereFragment, groupFragment, havingFragment, orderFragment,
        limitFragment, offsetFragment, whereParamsFrag, havingParamsFrag, limitParamsFrag,
        offsetParamsFrag, buildWhereClause_eq, hw, hh, hg, ho,
        String.append_assoc, ite_append] <;>
      (repeat' (split <;> (try simp [String.append_assoc])))

/-- Claim C7 (confirmed): the SQL text produced by `buildQueryFromBuilder`
is the concatenation, in the fixed order SELECT, FROM, JOIN, WHERE, GROUP BY,
HAVING, ORDER BY, LIMIT, OFFSET, of per-clause fragments (each empty when the
clause is absent), and the whole output is a function of the descriptor
alone. -/
theorem claim7_clause_order (b : D1QueryBuilder) :
    buildQueryFromBuilder b =
      { sql := selectFragment b ++ joinFragmentList b.joins ++ whereFragment b ++
          groupFragment b ++ havingFragment b ++ orderFragment b ++
          limitFragment b ++ offsetFragment b,
        params := whereParamsFrag b ++ havingParamsFrag b ++
          limitParamsFrag b ++ offsetParamsFrag b } :=
  buildQueryFromBuilder_decomp b

/-- Claim C8, counterexample: a direction token outside ASC/DESC is not
rejected — it is interpolated verbatim into the ORDER BY clause. -/
theorem claim8_counterexample :
    (buildQueryFromBuilder { table := "t", orderBy := [⟨"a", "EVIL"⟩] }).sql =
      "SELECT * FROM \"t\" ORDER BY \"a\" EVIL" := rfl

/-- Claim C8 as amended: `buildQueryFromBuilder` performs no direction
validation; whatever string the order-by entry carries is interpolated
verbatim after the quoted field name. -/
theorem claim8_direction_verbatim (b : D1QueryBuilder) (h : b.orderBy ≠ []) :
    (buildQueryFromBuilder b).sql =
      selectFragment b ++ joinFragmentList b.joins ++ whereFragment b ++
        groupFragment b ++ havingFragment b ++
        (" ORDER BY " ++
          String.intercalate ", "
            (b.orderBy.map (fun o => dq o.field ++ " " ++ o.direction))) ++
        limitFragment b ++ offsetFragment b := by
  have hd := buildQueryFromBuilder_decomp b
  have ho : orderFragment b =
      " ORDER BY " ++
        String.intercalate ", "
          (b.orderBy.map (fun o => dq o.field ++ " " ++ o.direction)) := by
    simp [orderFragment, List.length_pos.mpr h]
  rw [hd]
  simp [ho]

/-- Witness for C8 as amended, at direction token `SIDEWAYS`. -/
theorem claim8_direction_verbatim_witness :
    (buildQueryFromBuilder { table := "t", orderBy := [⟨"a", "SIDEWAYS"⟩] }).sql =
      "SELECT * FROM \"t\" ORDER BY \"a\" SIDEWAYS" :=
  (claim8_direction_verbatim { table := "t", orderBy := [⟨"a", "SIDEWAYS"⟩] }
    (by simp)).trans rfl

/-- Claim C9 (code bug): a single column marked `primaryKey` whose type is
not INTEGER-with-autoIncrement is rendered with NO inline PRIMARY KEY marker
at all, so the created table has no primary key; and with several primary-key
columns the inline AUTOINCREMENT rendering coexists with the trailing
composite clause. -/
theorem claim9_single_pk_dropped :
    buildCreateTableSQL "users" [{ name := "id", type := "TEXT", primaryKey := true }] {} =
      Except.ok "CREATE TABLE \"users\" (\"id\" TEXT)"
    ∧ buildCreateTableSQL "users"
        [{ name := "id", type := "INTEGER", primaryKey := true, autoIncrement := true },
         { name := "org", type := "TEXT", primaryKey := true }] {} =
      Except.ok
        ("CREATE TABLE \"users\" (\"id\" INTEGER PRIMARY KEY AUTOINCREMENT, " ++
          "\"org\" TEXT, PRIMARY KEY (\"id\", \"org\"))") :=
  ⟨rfl, rfl⟩

/-- Claim C10 (confirmed): in the simple builders a limit/offset of `0` is
treated as absent (JavaScript truthiness), while `buildQueryFromBuilder`
emits `LIMIT ?`/`OFFSET ?` and binds the value whenever the field is present,
`0` included. -/
theorem claim10_zero_limit (t : String) (cols : List String)
    (wm : List (String × JSValue)) (ob : Option String) (lim : Option Int)
    (b : D1QueryBuilder) (v : Int) :
    buildSelectQuery t cols wm ob (some 0) none = buildSelectQuery t cols wm ob none none
    ∧ buildSelectQuery t cols wm ob lim (some 0) = buildSelectQuery t cols wm ob lim none
    ∧ buildDeleteQuery t wm (some 0) = buildDeleteQuery t wm none
    ∧ buildQueryFromBuilder { b with limit := some v, offset := none } =
        { sql := (buildQueryFromBuilder { b with limit := none, offset := none }).sql ++
            " LIMIT ?",
          params := (buildQueryFromBuilder { b with limit := none, offset := none }).params ++
            [JSValue.vNum v] }
    ∧ buildQueryFromBuilder { b with offset := some v } =
        { sql := (buildQueryFromBuilder { b with offset := none }).sql ++ " OFFSET ?",
          params := (buildQueryFromBuilder { b with offset := none }).params ++
            [JSValue.vNum v] } := by
  refine ⟨?_, ?_, ?_, ?_, ?_⟩
  · simp [buildSelectQuery]
  · simp [buildSelectQuery]
  · simp [buildDeleteQuery]
  · cases b with
    | mk table columns joins whereConds whereLogic groupBy having orderBy limit offset =>
      simp [buildQueryFromBuilder_decomp, selectFragment, whereFragment, groupFragment,
        havingFragment, orderFragment, limitFragment, offsetFragment, whereParamsFrag,
        havingParamsFrag, limitParamsFrag, offsetParamsFrag, String.append_assoc]
  · cases b with
    | mk table columns joins whereConds whereLogic groupBy having orderBy limit offset =>
      simp [buildQueryFromBuilder_decomp, selectFragment, whereFragment, groupFragment,
        havingFragment, orderFragment, limitFragment, offsetFragment, whereParamsFrag,
        havingParamsFrag, limitParamsFrag, offsetParamsFrag, String.append_assoc]

end D1
